import Mathlib

/-!
Verification of the element lifecycle and serialization module
(`backend/chainlit/element.py`): a shallow embedding of the data model
(`Element`, `ElementDict`, task lists, custom elements), the wire
encode/decode pair (`to_dict` / `from_dict`), and the lifecycle
operations (`_create`, `send`, `remove`) with their effects on the
session/transport and the optional durable data layer.
-/

namespace Chainlit

/-! ## JSON values and Python `json.dumps` -/

/-- JSON values, as produced by the module's calls to `json.dumps`
(object keys keep insertion order, as Python dicts do). -/
inductive Json where
  | null : Json
  | str (s : String) : Json
  | arr (xs : List Json) : Json
  | obj (kvs : List (String × Json)) : Json
deriving Repr

/-- Lower hexadecimal digit, used for `\u00XX` escapes. -/
def hexDigit (n : Nat) : Char :=
  if n < 10 then Char.ofNat (48 + n) else Char.ofNat (87 + n)

/-- Escape one character the way Python's `json.dumps` does with
`ensure_ascii=False`: only quotes, backslashes and control characters
are escaped. -/
def jescChar (c : Char) : String :=
  if c = '"' then "\\\""
  else if c = '\\' then "\\\\"
  else if c = Char.ofNat 10 then "\\n"
  else if c = Char.ofNat 9 then "\\t"
  else if c = Char.ofNat 13 then "\\r"
  else if c = Char.ofNat 8 then "\\b"
  else if c = Char.ofNat 12 then "\\f"
  else if c.toNat < 32 then
    "\\u00" ++ String.mk [hexDigit (c.toNat / 16), hexDigit (c.toNat % 16)]
  else String.singleton c

/-- Escape a whole string for JSON output. -/
def jesc (s : String) : String :=
  String.join (s.toList.map jescChar)

/-- A JSON string literal with quotes. -/
def jquote (s : String) : String := "\"" ++ jesc s ++ "\""

mutual

/-- Python `json.dumps(v)` with default separators (`", "` and `": "`),
no indent. -/
def jdumps : Json → String
  | .null => "null"
  | .str s => jquote s
  | .arr xs => "[" ++ jdumpsList xs ++ "]"
  | .obj kvs => "\x7b" ++ jdumpsObj kvs ++ "\x7d"

/-- Comma-joined array items for `jdumps`. -/
def jdumpsList : List Json → String
  | [] => ""
  | [x] => jdumps x
  | x :: y :: xs => jdumps x ++ ", " ++ jdumpsList (y :: xs)

/-- Comma-joined object items for `jdumps`. -/
def jdumpsObj : List (String × Json) → String
  | [] => ""
  | [(k, v)] => jquote k ++ ": " ++ jdumps v
  | (k, v) :: kv :: kvs => jquote k ++ ": " ++ jdumps v ++ ", " ++ jdumpsObj (kv :: kvs)

end

/-- `4 * lvl` spaces, the indentation Python uses for `indent=4`. -/
def indentN (lvl : Nat) : String := String.mk (List.replicate (4 * lvl) ' ')

mutual

/-- Python `json.dumps(v, indent=4, ensure_ascii=False)` at nesting
level `lvl` (the separators become `","` + newline and `": "`, empty
containers print inline). -/
def jdumpsI (lvl : Nat) : Json → String
  | .null => "null"
  | .str s => jquote s
  | .arr [] => "[]"
  | .arr (x :: xs) =>
    "[\n" ++ jdumpsIList (lvl + 1) (x :: xs) ++ "\n" ++ indentN lvl ++ "]"
  | .obj [] => "\x7b\x7d"
  | .obj (kv :: kvs) =>
    "\x7b\n" ++ jdumpsIObj (lvl + 1) (kv :: kvs) ++ "\n" ++ indentN lvl ++ "\x7d"

/-- Indented array items, one per line. -/
def jdumpsIList (lvl : Nat) : List Json → String
  | [] => ""
  | [x] => indentN lvl ++ jdumpsI lvl x
  | x :: y :: xs => indentN lvl ++ jdumpsI lvl x ++ ",\n" ++ jdumpsIList lvl (y :: xs)

/-- Indented object items, one per line. -/
def jdumpsIObj (lvl : Nat) : List (String × Json) → String
  | [] => ""
  | [(k, v)] => indentN lvl ++ jquote k ++ ": " ++ jdumpsI lvl v
  | (k, v) :: kv :: kvs =>
    indentN lvl ++ jquote k ++ ": " ++ jdumpsI lvl v ++ ",\n" ++ jdumpsIObj lvl (kv :: kvs)

end

/-! ## Element data model -/

/-- The `ElementType` literal of the source: the class-level type tag
of each element variant. -/
inductive ElemType where
  | image | text | pdf | tasklist | audio | video | file | plotly | dataframe | custom
deriving DecidableEq, Repr

/-- The string value of a type tag, as it appears on the wire. -/
def ElemType.tag : ElemType → String
  | .image => "image"
  | .text => "text"
  | .pdf => "pdf"
  | .tasklist => "tasklist"
  | .audio => "audio"
  | .video => "video"
  | .file => "file"
  | .plotly => "plotly"
  | .dataframe => "dataframe"
  | .custom => "custom"

/-- The `ElementDisplay` literal: inline | side | page. -/
inductive ElementDisplay where
  | inline | side | page
deriving DecidableEq, Repr

/-- The `ElementSize` literal: small | medium | large. -/
inductive ElementSize where
  | small | medium | large
deriving DecidableEq, Repr

/-- The `content` field value: Python `Union[bytes, str]`. -/
inductive FileContent where
  | bytes (b : List Nat) : FileContent
  | str (s : String) : FileContent
deriving DecidableEq, Repr

/-- Python truthiness of an `Optional[str]`: `None` and `""` are falsy. -/
def truthyStr : Option String → Bool
  | none => false
  | some s => !s.isEmpty

/-- Python truthiness of the optional `content` field: `None`, `b""` and
`""` are falsy. -/
def contentTruthy : Option FileContent → Bool
  | none => false
  | some (.bytes b) => !b.isEmpty
  | some (.str s) => !s.isEmpty

/-- Python `isinstance(content, (bytes, bytearray))` (a `str` or absent
content is not a byte buffer). -/
def isBytesContent : Option FileContent → Bool
  | some (.bytes _) => true
  | _ => false

/-- The `Element` dataclass, flattened over all variants: the
variant-specific attributes (`props`, `page`, `auto_play`,
`player_config`, `size`, `language`) are `Option`s, mirroring the
source's `getattr(self, attr, None)` access in `to_dict`.  The two
lifecycle flags set by `__post_init__` are carried as fields. -/
structure Element where
  type : ElemType
  thread_id : String
  name : String
  id : String
  chainlit_key : Option String
  url : Option String
  object_key : Option String
  path : Option String
  content : Option FileContent
  display : ElementDisplay
  size : Option ElementSize
  for_id : Option String
  language : Option String
  mime : Option String
  props : Option (List (String × Json))
  page : Option Int
  auto_play : Option Bool
  player_config : Option (List (String × Json))
  persisted : Bool
  updatable : Bool
deriving Repr

/-- The `ElementDict` wire dictionary.  Each field is
`Option (Option _)` (or `Option _` where the TypedDict declares a
non-optional value type): the outer layer is key presence, the inner
layer is a JSON null.  `content` is not declared by the TypedDict but
is read by `from_dict` via `.get`, so it is carried here too. -/
structure ElementDict where
  id : Option String
  threadId : Option (Option String)
  type : Option String
  chainlitKey : Option (Option String)
  path : Option (Option String)
  url : Option (Option String)
  objectKey : Option (Option String)
  name : Option String
  display : Option ElementDisplay
  size : Option (Option ElementSize)
  language : Option (Option String)
  page : Option (Option Int)
  props : Option (Option (List (String × Json)))
  autoPlay : Option (Option Bool)
  playerConfig : Option (Option (List (String × Json)))
  forId : Option (Option String)
  mime : Option (Option String)
  content : Option (Option String)
deriving Repr

/-- `Element.to_dict`: every key the source writes is present (possibly
null); `content` and `path` are not written. -/
def Element.to_dict (e : Element) : ElementDict :=
  { id := some e.id
  , threadId := some (some e.thread_id)
  , type := some e.type.tag
  , url := some e.url
  , chainlitKey := some e.chainlit_key
  , name := some e.name
  , display := some e.display
  , objectKey := some e.object_key
  , size := some e.size
  , props := some e.props
  , page := some e.page
  , autoPlay := some e.auto_play
  , playerConfig := some e.player_config
  , language := some e.language
  , forId := some e.for_id
  , mime := some e.mime
  , path := none
  , content := none }

/-- The errors the module can raise: the `ValueError` of
`__post_init__`, the `ValueError` of `send`, an exception propagated
from `persist_file`, an exception propagated from the data layer, the
`TypeError` of a figure check, and a pydantic field validation error. -/
inductive CLError where
  | constructionError
  | deliveryError
  | uploadError (msg : String)
  | dataLayerError (msg : String)
  | figureTypeError (msg : String)
  | validationError (field : String)
deriving DecidableEq, Repr

/-- `True` on `Except.ok`. -/
def isOkB : Except CLError α → Bool
  | .ok _ => true
  | .error _ => false

/-- `Element.__post_init__`: initializes the lifecycle flags and raises
`ValueError` when `url`, `path` and `content` are all falsy. -/
def postInit (e : Element) : Except CLError Element :=
  let e := { e with persisted := false, updatable := false }
  if !truthyStr e.url && !truthyStr e.path && !contentTruthy e.content then
    .error .constructionError
  else .ok e

/-- `Element.infer_type_from_mime`: pick the element type for an
uploaded file from its mime string. -/
def infer_type_from_mime (mimeType : String) : ElemType :=
  if (mimeType.splitOn "image").length > 1 then .image
  else if mimeType = "application/pdf" then .pdf
  else if (mimeType.splitOn "audio").length > 1 then .audio
  else if (mimeType.splitOn "video").length > 1 then .video
  else .file

/-! ## Environment, effects and lifecycle operations -/

/-- The argument of `filetype.guess(self.path or self.content)`: the
path when it is truthy, the content value otherwise. -/
inductive SniffSrc where
  | fromPath (p : String) : SniffSrc
  | fromContent (c : Option FileContent) : SniffSrc
deriving Repr

/-- `self.path or self.content`, packaged for the sniffing oracle. -/
def sniffArg (e : Element) : SniffSrc :=
  if truthyStr e.path then .fromPath (e.path.getD "") else .fromContent e.content

/-- The external collaborators of one lifecycle operation: whether a
data layer is configured, the outcomes of its `create_element` /
`delete_element` calls, the outcome of the session's `persist_file`
(an error or the returned record's `id`), and the two mime oracles
(`filetype.guess` and `mimetypes.guess_type(url)[0]`). -/
structure Env where
  hasDataLayer : Bool
  createElementResult : Except String Unit
  deleteElementResult : Except String Unit
  persistFileResult : Except String String
  sniff : SniffSrc → Option String
  guessTypeUrl : String → Option String

/-- Observable side effects of the lifecycle operations, in the order
they are issued. -/
inductive Effect where
  | dataLayerCreate (elementId : String) : Effect
  | logError (msg : String) : Effect
  | persistFile (name : String) (path : Option String)
      (content : Option FileContent) (mime : String) : Effect
  | dataLayerDelete (elementId : String) (threadId : String) : Effect
  | emitRemove (elementId : String) : Effect
  | sendElement (d : ElementDict) : Effect
deriving Repr

/-- Is the effect a `persist_file` upload request? -/
def isPersistFileEff : Effect → Bool
  | .persistFile _ _ _ _ => true
  | _ => false

/-- Is the effect a `send_element` transport emission? -/
def isSendElementEff : Effect → Bool
  | .sendElement _ => true
  | _ => false

/-- Is the effect a `remove_element` transport emission? -/
def isEmitRemoveEff : Effect → Bool
  | .emitRemove _ => true
  | _ => false

/-- Is the effect a data-layer `create_element` request? -/
def isDataLayerCreateEff : Effect → Bool
  | .dataLayerCreate _ => true
  | _ => false

/-- The module-level `mime_types` table, keyed by the type tag. -/
def mime_types (t : ElemType) : Option String :=
  match t with
  | .text => some "text/plain"
  | .tasklist => some "application/json"
  | .plotly => some "application/json"
  | _ => none

/-- The mime resolution block at the top of `send`, run when
`not self.mime`: static table first, then `filetype.guess` on the path
or byte content (keeping the old value when the guess fails), then
`mimetypes.guess_type(url)[0]` (assigned even when it is `None`). -/
def resolveMime (env : Env) (e : Element) : Option String :=
  match mime_types e.type with
  | some m => some m
  | none =>
    if truthyStr e.path || isBytesContent e.content then
      match env.sniff (sniffArg e) with
      | some m => some m
      | none => e.mime
    else if truthyStr e.url then
      env.guessTypeUrl (e.url.getD "")
    else e.mime

/-- `Element._create`: early return for a persisted non-updatable
element; otherwise a fire-and-forget `create_element` request whose
failure is only logged, then the awaited `persist_file` upload when
there is no url and (no chainlit key or updatable), whose failure
propagates; finally `persisted := true`. -/
def Element.create (env : Env) (e : Element) (persist : Bool) :
    Element × List Effect × Except CLError Bool :=
  if e.persisted && !e.updatable then (e, [], .ok true)
  else
    let dlEffs :=
      if env.hasDataLayer && persist then
        match env.createElementResult with
        | .ok _ => [Effect.dataLayerCreate e.id]
        | .error m => [Effect.dataLayerCreate e.id,
                       Effect.logError ("Failed to create element: " ++ m)]
      else []
    if !truthyStr e.url && (!truthyStr e.chainlit_key || e.updatable) then
      let upEff := Effect.persistFile e.name e.path e.content (e.mime.getD "")
      match env.persistFileResult with
      | .error m => (e, dlEffs ++ [upEff], .error (.uploadError m))
      | .ok fid =>
        ({ e with chainlit_key := some fid, persisted := true },
         dlEffs ++ [upEff], .ok true)
    else
      ({ e with persisted := true }, dlEffs, .ok true)

/-- `Element.remove`: the data-layer `delete_element` call is awaited
with no exception handler, so its failure propagates and skips the
`remove_element` emission. -/
def Element.remove (env : Env) (e : Element) :
    List Effect × Except CLError Unit :=
  if env.hasDataLayer then
    match env.deleteElementResult with
    | .error m => ([Effect.dataLayerDelete e.id e.thread_id],
                   .error (.dataLayerError m))
    | .ok _ => ([Effect.dataLayerDelete e.id e.thread_id, Effect.emitRemove e.id],
                .ok ())
  else ([Effect.emitRemove e.id], .ok ())

/-- The first two statements of `send`: assign `for_id`, then resolve
the mime when it is falsy. -/
def sendPrep (env : Env) (e : Element) (forId : Option String) : Element :=
  let e1 := { e with for_id := forId }
  if truthyStr e1.mime then e1 else { e1 with mime := resolveMime env e1 }

/-- `Element.send`: assign `for_id`, resolve the mime when falsy, run
`_create`, then raise `ValueError` when neither `url` nor
`chainlit_key` is truthy, else emit the encoded dictionary.  The
returned element is the mutated state even when an error is raised. -/
def Element.send (env : Env) (e : Element) (forId : Option String) (persist : Bool) :
    Element × List Effect × Except CLError Unit :=
  match Element.create env (sendPrep env e forId) persist with
  | (e3, effs, .error err) => (e3, effs, .error err)
  | (e3, effs, .ok _) =>
    if !truthyStr e3.url && !truthyStr e3.chainlit_key then
      (e3, effs, .error .deliveryError)
    else
      (e3, effs ++ [Effect.sendElement e3.to_dict], .ok ())

/-! ## Constructors -/

/-- Construct a `File` element (type tag `file`), mirroring the
dataclass defaults and `__post_init__`. -/
def mkFile (ctxThread elemId nm : String) (url path : Option String)
    (content : Option FileContent) : Except CLError Element :=
  postInit
    { type := .file
    , thread_id := ctxThread
    , name := nm
    , id := elemId
    , chainlit_key := none
    , url := url
    , object_key := none
    , path := path
    , content := content
    , display := .inline
    , size := none
    , for_id := none
    , language := none
    , mime := none
    , props := none
    , page := none
    , auto_play := none
    , player_config := none
    , persisted := false
    , updatable := false }

/-- Construct an `Image` element: type tag `image`, size defaulting to
`medium` but settable by the caller. -/
def mkImage (ctxThread elemId nm : String) (url path : Option String)
    (content : Option FileContent) (size : ElementSize) : Except CLError Element :=
  postInit
    { type := .image
    , thread_id := ctxThread
    , name := nm
    , id := elemId
    , chainlit_key := none
    , url := url
    , object_key := none
    , path := path
    , content := content
    , display := .inline
    , size := some size
    , for_id := none
    , language := none
    , mime := none
    , props := none
    , page := none
    , auto_play := none
    , player_config := none
    , persisted := false
    , updatable := false }

/-- Construct a `CustomElement` with the given props (url and path as
supplied, the dataclass defaults elsewhere): its `__post_init__` first
sets `content` to `json.dumps(self.props)`, then runs the base check,
then marks the element updatable. -/
def mkCustomElement (ctxThread elemId nm : String) (url path : Option String)
    (props : List (String × Json)) : Except CLError Element :=
  match postInit
    { type := .custom
    , thread_id := ctxThread
    , name := nm
    , id := elemId
    , chainlit_key := none
    , url := url
    , object_key := none
    , path := path
    , content := some (.str (jdumps (.obj props)))
    , display := .inline
    , size := none
    , for_id := none
    , language := none
    , mime := some "application/json"
    , props := some props
    , page := none
    , auto_play := none
    , player_config := none
    , persisted := false
    , updatable := false } with
  | .error err => .error err
  | .ok e => .ok { e with updatable := true }

/-! ## TaskList -/

/-- The `TaskStatus` enum. -/
inductive TaskStatus where
  | ready | running | failed | done
deriving DecidableEq, Repr

/-- `TaskStatus.value`: the enum's string value. -/
def TaskStatus.value : TaskStatus → String
  | .ready => "ready"
  | .running => "running"
  | .failed => "failed"
  | .done => "done"

/-- The `Task` value type. -/
structure Task where
  title : String
  status : TaskStatus
  forId : Option String
deriving Repr

/-- A `TaskList` element: the base element plus the owned task
sequence and the free-text status (both excluded from the wire dict). -/
structure TaskList where
  elem : Element
  status : String
  tasks : List Task
deriving Repr

/-- Construct a `TaskList` with the dataclass defaults: name
`tasklist`, content the non-empty placeholder, status `Ready`, no
tasks; its `__post_init__` runs the base check then marks the element
updatable. -/
def mkTaskListDefault (ctxThread elemId : String) : Except CLError TaskList :=
  match postInit
    { type := .tasklist
    , thread_id := ctxThread
    , name := "tasklist"
    , id := elemId
    , chainlit_key := none
    , url := none
    , object_key := none
    , path := none
    , content := some (.str "dummy content to pass validation")
    , display := .inline
    , size := none
    , for_id := none
    , language := none
    , mime := none
    , props := none
    , page := none
    , auto_play := none
    , player_config := none
    , persisted := false
    , updatable := false } with
  | .error err => .error err
  | .ok e => .ok { elem := { e with updatable := true }, status := "Ready", tasks := [] }

/-- `TaskList.add_task`: append a task to the owned sequence. -/
def TaskList.add_task (t : TaskList) (task : Task) : TaskList :=
  { t with tasks := t.tasks ++ [task] }

/-- The JSON document `preprocess_content` serializes:
`{"status": status, "tasks": [{"title", "status", "forId"} ...]}`. -/
def taskListJson (t : TaskList) : Json :=
  .obj [("status", .str t.status),
        ("tasks", .arr (t.tasks.map fun task =>
          .obj [("title", .str task.title),
                ("status", .str task.status.value),
                ("forId", match task.forId with | none => Json.null | some s => Json.str s)]))]

/-- `TaskList.preprocess_content`: store the indented JSON
serialization of the current status and tasks in `content`. -/
def TaskList.preprocess_content (t : TaskList) : TaskList :=
  { t with elem := { t.elem with content := some (.str (jdumpsI 0 (taskListJson t))) } }

/-- `TaskList.send`: recompute `content`, then run the base `send`
with `for_id = ""`. -/
def TaskList.send (env : Env) (t : TaskList) :
    TaskList × List Effect × Except CLError Unit :=
  match Element.send env t.preprocess_content.elem (some "") true with
  | (e, effs, r) => ({ t.preprocess_content with elem := e }, effs, r)

/-! ## Concrete fixtures for witnesses and counterexamples -/

/-- A benign environment: no data layer, uploads succeed with id
`key1`, sniffing finds nothing, url guessing yields `image/png`. -/
def envW : Env :=
  { hasDataLayer := false
  , createElementResult := .ok ()
  , deleteElementResult := .ok ()
  , persistFileResult := .ok "key1"
  , sniff := fun _ => none
  , guessTypeUrl := fun _ => some "image/png" }

/-- The environment with a data layer whose `delete_element` raises. -/
def envDelFail : Env := { envW with hasDataLayer := true, deleteElementResult := .error "boom" }

/-- The environment with a data layer whose `create_element` fails. -/
def envCreateFail : Env := { envW with hasDataLayer := true, createElementResult := .error "boom" }

/-- The element produced by `File(name="n", content="hello")` in a
session with thread id `t` (equal to the `.ok` value of
`mkFile "t" "i" "n" none none (some (.str "hello"))`). -/
def eBase : Element :=
  { type := .file
  , thread_id := "t"
  , name := "n"
  , id := "i"
  , chainlit_key := none
  , url := none
  , object_key := none
  , path := none
  , content := some (.str "hello")
  , display := .inline
  , size := none
  , for_id := none
  , language := none
  , mime := none
  , props := none
  , page := none
  , auto_play := none
  , player_config := none
  , persisted := false
  , updatable := false }

/-- An element state with no content source at all (what the base
constructor rejects). -/
def eEmpty : Element := { eBase with content := none }

/-- The environment whose upload succeeds but returns an empty (falsy)
record id. -/
def envEmptyKey : Env := { envW with persistFileResult := .ok "" }

/-! ## Helper lemmas -/

/-- The serialization of a JSON object is never the empty string. -/
theorem jdumps_obj_isEmpty (p : List (String × Json)) :
    (jdumps (Json.obj p)).isEmpty = false := by
  cases hb : (jdumps (Json.obj p)).isEmpty with
  | false => rfl
  | true =>
    exfalso
    have h2 : jdumps (Json.obj p) = "" := (String.isEmpty_iff _).mp hb
    have he : jdumps (Json.obj p) = "\x7b" ++ jdumpsObj p ++ "\x7d" := rfl
    have hl := congrArg String.length (he ▸ h2)
    rw [String.length_append, String.length_append] at hl
    simp only [show ("\x7b" : String).length = 1 from rfl,
      show ("\x7d" : String).length = 1 from rfl,
      show ("" : String).length = 0 from rfl] at hl
    omega

/-- A string content holding a serialized JSON object is truthy. -/
theorem contentTruthy_jdumps (p : List (String × Json)) :
    contentTruthy (some (.str (jdumps (.obj p)))) = true := by
  simp [contentTruthy, jdumps_obj_isEmpty]

/-- `__post_init__` succeeds whenever `content` is truthy. -/
theorem postInit_ok_of_content (e : Element) (h : contentTruthy e.content = true) :
    postInit e = .ok { e with persisted := false, updatable := false } := by
  unfold postInit
  simp [h]

/-- `_create` leaves `for_id`, `mime`, `url`, `path`, `content`,
`name`, `type` and `thread_id` unchanged. -/
theorem create_fst_preserve (env : Env) (e : Element) (p : Bool) :
    (Element.create env e p).1.for_id = e.for_id
    ∧ (Element.create env e p).1.mime = e.mime
    ∧ (Element.create env e p).1.url = e.url
    ∧ (Element.create env e p).1.path = e.path
    ∧ (Element.create env e p).1.content = e.content
    ∧ (Element.create env e p).1.name = e.name
    ∧ (Element.create env e p).1.type = e.type
    ∧ (Element.create env e p).1.thread_id = e.thread_id := by
  unfold Element.create
  cases hg : e.persisted && !e.updatable <;>
    cases hc : !truthyStr e.url && (!truthyStr e.chainlit_key || e.updatable) <;>
      cases hp : env.persistFileResult <;>
        simp [hg, hc, hp]

/-- Errors out of `_create` are exactly the upload errors, and they
leave the element unchanged. -/
theorem create_error_inv (env : Env) (e : Element) (p : Bool) (err : CLError)
    (h : (Element.create env e p).2.2 = .error err) :
    (∃ m, err = CLError.uploadError m ∧ env.persistFileResult = .error m)
    ∧ (Element.create env e p).1 = e := by
  unfold Element.create at h ⊢
  cases hg : e.persisted && !e.updatable <;>
    cases hc : !truthyStr e.url && (!truthyStr e.chainlit_key || e.updatable) <;>
      cases hp : env.persistFileResult <;>
        (simp [hg, hc, hp] at h ⊢ <;> simp_all)

/-- When `_create` returns `ok`, the returned element is persisted. -/
theorem create_ok_persisted (env : Env) (e : Element) (p : Bool)
    (h : (Element.create env e p).2.2 = .ok true) :
    (Element.create env e p).1.persisted = true := by
  unfold Element.create at h ⊢
  cases hg : e.persisted && !e.updatable
  · cases hc : !truthyStr e.url && (!truthyStr e.chainlit_key || e.updatable) <;>
      cases hp : env.persistFileResult <;>
        simp [hg, hc, hp] at h ⊢
  · have := (Bool.and_eq_true _ _).mp hg
    simp [hg, this.1]

/-- When the upload cannot fail, `_create` always returns `ok true`. -/
theorem create_ok_of_upload_ok (env : Env) (e : Element) (p : Bool) (k : String)
    (hk : env.persistFileResult = .ok k) :
    (Element.create env e p).2.2 = .ok true := by
  unfold Element.create
  cases hg : e.persisted && !e.updatable <;>
    cases hc : !truthyStr e.url && (!truthyStr e.chainlit_key || e.updatable) <;>
      simp [hg, hc, hk]

/-- An `ok` result of `_create` is always `ok true`, and leaves the
element persisted. -/
theorem create_ok_inv (env : Env) (e : Element) (p : Bool) (b : Bool)
    (h : (Element.create env e p).2.2 = .ok b) :
    b = true ∧ (Element.create env e p).1.persisted = true := by
  unfold Element.create at h ⊢
  cases hg : e.persisted && !e.updatable
  · cases hc : !truthyStr e.url && (!truthyStr e.chainlit_key || e.updatable) <;>
      cases hp : env.persistFileResult <;>
        simp [hg, hc, hp] at h ⊢ <;> simp_all
  · have hpers := (Bool.and_eq_true _ _).mp hg
    simp [hg, hpers.1] at h ⊢
    simp_all

/-- The fields of `sendPrep`: only `for_id` and (possibly) `mime`
change. -/
theorem sendPrep_fields (env : Env) (e : Element) (fid : Option String) :
    (sendPrep env e fid).for_id = fid
    ∧ (sendPrep env e fid).url = e.url
    ∧ (sendPrep env e fid).path = e.path
    ∧ (sendPrep env e fid).content = e.content
    ∧ (sendPrep env e fid).chainlit_key = e.chainlit_key
    ∧ (sendPrep env e fid).persisted = e.persisted
    ∧ (sendPrep env e fid).updatable = e.updatable
    ∧ (sendPrep env e fid).type = e.type
    ∧ (sendPrep env e fid).name = e.name
    ∧ (sendPrep env e fid).mime
        = (if truthyStr e.mime then e.mime
           else resolveMime env { e with for_id := fid }) := by
  unfold sendPrep
  cases h : truthyStr e.mime <;> simp [h]

/-- The `mime` field after `sendPrep`. -/
theorem sendPrep_mime (env : Env) (e : Element) (fid : Option String) :
    (sendPrep env e fid).mime
      = (if truthyStr e.mime then e.mime
         else resolveMime env { e with for_id := fid }) := by
  unfold sendPrep
  cases h : truthyStr e.mime <;> simp [h]

/-- `send` returns the element with the mime `sendPrep` computed. -/
theorem send_fst_mime (env : Env) (e : Element) (fid : Option String) (p : Bool) :
    (Element.send env e fid p).1.mime = (sendPrep env e fid).mime := by
  unfold Element.send
  rcases hcr : Element.create env (sendPrep env e fid) p with ⟨e3, effs, r⟩
  have h3 : e3.mime = (sendPrep env e fid).mime := by
    have := (create_fst_preserve env (sendPrep env e fid) p).2.1
    rw [hcr] at this
    exact this
  cases r with
  | error err => exact h3
  | ok b =>
    cases hd : !truthyStr e3.url && !truthyStr e3.chainlit_key <;> simp [hd, h3]

/-- `send` returns the element with `for_id` set to the argument. -/
theorem send_fst_for_id (env : Env) (e : Element) (fid : Option String) (p : Bool) :
    (Element.send env e fid p).1.for_id = fid := by
  unfold Element.send
  rcases hcr : Element.create env (sendPrep env e fid) p with ⟨e3, effs, r⟩
  have h3 : e3.for_id = (sendPrep env e fid).for_id := by
    have := (create_fst_preserve env (sendPrep env e fid) p).1
    rw [hcr] at this
    exact this
  have h4 : (sendPrep env e fid).for_id = fid := (sendPrep_fields env e fid).1
  cases r with
  | error err => exact h3.trans h4
  | ok b =>
    cases hd : !truthyStr e3.url && !truthyStr e3.chainlit_key <;>
      simp [hd, h3, h4]

/-- `send` never changes `content`. -/
theorem send_fst_content (env : Env) (e : Element) (fid : Option String) (p : Bool) :
    (Element.send env e fid p).1.content = e.content := by
  unfold Element.send
  rcases hcr : Element.create env (sendPrep env e fid) p with ⟨e3, effs, r⟩
  have h3 : e3.content = (sendPrep env e fid).content := by
    have := (create_fst_preserve env (sendPrep env e fid) p).2.2.2.2.1
    rw [hcr] at this
    exact this
  have h4 : (sendPrep env e fid).content = e.content :=
    (sendPrep_fields env e fid).2.2.2.1
  cases r with
  | error err => exact h3.trans h4
  | ok b =>
    cases hd : !truthyStr e3.url && !truthyStr e3.chainlit_key <;>
      simp [hd, h3, h4]

/-! ## Claim theorems -/

/-- C2 (counterexample): constructing a `File` with BOTH a url and a
content supplied succeeds, so a successful construction does not have
exactly one of url, path, content non-empty. -/
theorem c2_counterexample :
    mkFile "t0" "id0" "n0" (some "https://a/b") none (some (.str "abc"))
      = .ok { type := .file, thread_id := "t0", name := "n0", id := "id0"
            , chainlit_key := none, url := some "https://a/b", object_key := none
            , path := none, content := some (.str "abc"), display := .inline
            , size := none, for_id := none, language := none, mime := none
            , props := none, page := none, auto_play := none, player_config := none
            , persisted := false, updatable := false }
    ∧ truthyStr (some "https://a/b") = true
    ∧ contentTruthy (some (.str "abc")) = true := by
  exact ⟨rfl, rfl, rfl⟩

/-- C2 (amended): construction succeeds iff AT LEAST one of url, path,
content is truthy, and fails with the construction `ValueError` when
all three are empty. -/
theorem c2_amended (e : Element) :
    isOkB (postInit e) = (truthyStr e.url || truthyStr e.path || contentTruthy e.content)
    ∧ ((truthyStr e.url || truthyStr e.path || contentTruthy e.content) = false →
        postInit e = .error .constructionError) := by
  unfold postInit isOkB
  cases hu : truthyStr e.url <;> cases hp : truthyStr e.path <;>
    cases hc : contentTruthy e.content <;> simp [hu, hp, hc]

/-- C2 (witness): the amended theorem applied to the element state with
no content source. -/
theorem c2_amended_witness : postInit eEmpty = .error .constructionError :=
  (c2_amended eEmpty).2 rfl

/-- C5: `_create` on an already-persisted, non-updatable element
returns `true` with no effects and an unchanged element. -/
theorem c5_create_idempotent (env : Env) (e : Element) (p : Bool)
    (h1 : e.persisted = true) (h2 : e.updatable = false) :
    Element.create env e p = (e, [], .ok true) := by
  unfold Element.create
  simp [h1, h2]

/-- C5 (witness): the idempotence theorem at a concrete persisted
element. -/
theorem c5_create_idempotent_witness :
    Element.create envW { eBase with persisted := true } true
      = ({ eBase with persisted := true }, [], .ok true) :=
  c5_create_idempotent envW { eBase with persisted := true } true rfl rfl

/-- C9: a default `TaskList` construction always succeeds with the
placeholder content, and a `CustomElement` construction always
succeeds with content `json.dumps(props)` (which is non-empty even for
empty props), regardless of url, path or supplied content. -/
theorem c9_composite_construction :
    (∀ th i, mkTaskListDefault th i = .ok
        { elem :=
            { type := .tasklist, thread_id := th, name := "tasklist", id := i
            , chainlit_key := none, url := none, object_key := none, path := none
            , content := some (.str "dummy content to pass validation")
            , display := .inline, size := none, for_id := none, language := none
            , mime := none, props := none, page := none, auto_play := none
            , player_config := none, persisted := false, updatable := true }
        , status := "Ready", tasks := [] })
    ∧ (∀ th i nm url path props, mkCustomElement th i nm url path props = .ok
        { type := .custom, thread_id := th, name := nm, id := i
        , chainlit_key := none, url := url, object_key := none, path := path
        , content := some (.str (jdumps (.obj props))), display := .inline
        , size := none, for_id := none, language := none
        , mime := some "application/json", props := some props
        , page := none, auto_play := none, player_config := none
        , persisted := false, updatable := true })
    ∧ (∀ props, (jdumps (Json.obj props)).isEmpty = false) := by
  refine ⟨fun th i => rfl, fun th i nm url path props => ?_, jdumps_obj_isEmpty⟩
  unfold mkCustomElement
  rw [postInit_ok_of_content _ (contentTruthy_jdumps props)]

/-- On an element with a truthy url, `_create` never uploads: it is
the early return or the data-layer effects plus `persisted := true`. -/
theorem create_url_truthy (env : Env) (e : Element) (p : Bool)
    (hurl : truthyStr e.url = true) :
    Element.create env e p
      = if e.persisted && !e.updatable then (e, [], .ok true)
        else ({ e with persisted := true },
              (if env.hasDataLayer && p then
                 match env.createElementResult with
                 | .ok _ => [Effect.dataLayerCreate e.id]
                 | .error m => [Effect.dataLayerCreate e.id,
                                Effect.logError ("Failed to create element: " ++ m)]
               else []), .ok true) := by
  unfold Element.create
  have hc : (!truthyStr e.url && (!truthyStr e.chainlit_key || e.updatable)) = false := by
    rw [hurl]
    rfl
  rw [hc]
  cases hg : e.persisted && !e.updatable <;> simp [hg]

/-- C3 (counterexample): with a configured data layer whose
`delete_element` raises, `remove` propagates the error and the
`remove_element` emission never happens — the error is not suppressed. -/
theorem c3_counterexample :
    (Element.remove envDelFail eBase).2 = .error (.dataLayerError "boom")
    ∧ (Element.remove envDelFail eBase).1.any isEmitRemoveEff = false := by
  exact ⟨rfl, rfl⟩

/-- C3 (amended): during `create` a failing `create_element` is logged
and suppressed — the run returns the same state and result as with a
succeeding data layer, with only an extra log effect; during `remove`
a failing `delete_element` propagates and the `remove_element`
emission is skipped. -/
theorem c3_amended :
    (∀ env e p m, env.hasDataLayer = true → p = true →
      env.createElementResult = .error m →
      (e.persisted && !e.updatable) = false →
      (Element.create env e p).1
          = (Element.create { env with createElementResult := .ok () } e p).1
        ∧ (Element.create env e p).2.2
            = (Element.create { env with createElementResult := .ok () } e p).2.2
        ∧ (Element.create env e p).2.1
            = Effect.dataLayerCreate e.id
                :: Effect.logError ("Failed to create element: " ++ m)
                :: ((Element.create { env with createElementResult := .ok () } e p).2.1).drop 1)
    ∧ (∀ env e m, env.hasDataLayer = true → env.deleteElementResult = .error m →
        Element.remove env e
          = ([Effect.dataLayerDelete e.id e.thread_id], .error (.dataLayerError m))) := by
  constructor
  · intro env e p m henv hp herr hg
    unfold Element.create
    cases hc : !truthyStr e.url && (!truthyStr e.chainlit_key || e.updatable) <;>
      cases hup : env.persistFileResult <;>
        simp [hg, henv, hp, herr, hc, hup]
  · intro env e m henv herr
    unfold Element.remove
    simp [henv, herr]

/-- C3 (witness): the amended theorem at concrete inputs — a failing
`create_element` on a fresh element, and a failing `delete_element`. -/
theorem c3_amended_witness :
    ((Element.create envCreateFail eBase true).1
        = (Element.create { envCreateFail with createElementResult := .ok () } eBase true).1
      ∧ (Element.create envCreateFail eBase true).2.2
          = (Element.create { envCreateFail with createElementResult := .ok () } eBase true).2.2
      ∧ (Element.create envCreateFail eBase true).2.1
          = Effect.dataLayerCreate eBase.id
              :: Effect.logError ("Failed to create element: " ++ "boom")
              :: ((Element.create { envCreateFail with createElementResult := .ok () } eBase true).2.1).drop 1)
    ∧ Element.remove envDelFail eBase
        = ([Effect.dataLayerDelete eBase.id eBase.thread_id], .error (.dataLayerError "boom")) :=
  ⟨c3_amended.1 envCreateFail eBase true "boom" rfl rfl rfl rfl,
   c3_amended.2 envDelFail eBase "boom" rfl rfl⟩

/-- C6 (counterexample): an element that is already persisted and not
updatable, with no url and no chainlit key, gets NO upload request
from `create` although the claimed condition (no url, no prior key)
holds — the early return takes precedence. -/
theorem c6_counterexample :
    (Element.create envW { eBase with persisted := true } true).2.1.any isPersistFileEff = false
    ∧ truthyStr ({ eBase with persisted := true } : Element).url = false
    ∧ truthyStr ({ eBase with persisted := true } : Element).chainlit_key = false
    ∧ ({ eBase with persisted := true } : Element).persisted = true
    ∧ ({ eBase with persisted := true } : Element).updatable = false := by
  exact ⟨rfl, rfl, rfl, rfl, rfl⟩

/-- C6 (amended): for an element on which `create` proceeds (not
already persisted-and-non-updatable), the upload is requested iff
there is no url and (no prior chainlit key or the element is
updatable); a successful upload's id becomes `chainlit_key`; the
element ends persisted whenever the upload step cannot fail; and a
send on an element with a url makes no upload request and delivers
successfully. -/
theorem c6_amended :
    (∀ env e p, (e.persisted && !e.updatable) = false →
      ((Element.create env e p).2.1.any isPersistFileEff
          = (!truthyStr e.url && (!truthyStr e.chainlit_key || e.updatable)))
      ∧ (∀ k, env.persistFileResult = .ok k →
          truthyStr e.url = false → (!truthyStr e.chainlit_key || e.updatable) = true →
          (Element.create env e p).1.chainlit_key = some k)
      ∧ (∀ k, env.persistFileResult = .ok k →
          (Element.create env e p).1.persisted = true))
    ∧ (∀ env e fid, truthyStr e.url = true →
        (Element.send env e fid true).2.1.any isPersistFileEff = false
        ∧ (Element.send env e fid true).2.2 = .ok ()) := by
  constructor
  · intro env e p hg
    refine ⟨?_, ?_, ?_⟩
    · unfold Element.create
      cases hc : !truthyStr e.url && (!truthyStr e.chainlit_key || e.updatable) <;>
        cases hup : env.persistFileResult <;>
          cases hd : env.hasDataLayer && p <;>
            cases hcr : env.createElementResult <;>
              simp [hg, hc, hup, hd, hcr, isPersistFileEff]
    · intro k hk hu hck
      unfold Element.create
      simp [hg, hu, hck, hk]
    · intro k hk
      unfold Element.create
      cases hc : !truthyStr e.url && (!truthyStr e.chainlit_key || e.updatable) <;>
        simp [hg, hc, hk]
  · intro env e fid hurl
    have hurl2 : truthyStr (sendPrep env e fid).url = true := by
      rw [(sendPrep_fields env e fid).2.1]
      exact hurl
    unfold Element.send
    rw [create_url_truthy env (sendPrep env e fid) true hurl2]
    cases hg : (sendPrep env e fid).persisted && !(sendPrep env e fid).updatable <;>
      cases hd : env.hasDataLayer <;>
        cases hcr : env.createElementResult <;>
          simp [hg, hd, hcr, hurl2, isPersistFileEff, isSendElementEff]

/-- C6 (witness): the amended theorem at concrete inputs — a fresh
content element whose upload id becomes the chainlit key, and a
url-only element whose send uploads nothing and succeeds. -/
theorem c6_amended_witness :
    (Element.create envW eBase true).1.chainlit_key = some "key1"
    ∧ ((Element.send envW { eBase with url := some "https://x/y.png" } (some "m2") true).2.1.any
          isPersistFileEff = false
       ∧ (Element.send envW { eBase with url := some "https://x/y.png" } (some "m2") true).2.2
          = .ok ()) :=
  ⟨(c6_amended.1 envW eBase true rfl).2.1 "key1" rfl rfl rfl,
   c6_amended.2 envW { eBase with url := some "https://x/y.png" } (some "m2") rfl⟩

/-- C4: when the upload step cannot fail, `send` raises the delivery
`ValueError` exactly when the post-create element has neither a truthy
url nor a truthy chainlit key; otherwise it succeeds and its last
effect is the `send_element` emission of the encoded element. -/
theorem c4_send_delivery (env : Env) (e : Element) (fid : Option String) (k : String)
    (hk : env.persistFileResult = .ok k) :
    ((Element.send env e fid true).2.2 = .error .deliveryError
      ↔ (truthyStr (Element.send env e fid true).1.url = false
          ∧ truthyStr (Element.send env e fid true).1.chainlit_key = false))
    ∧ ((truthyStr (Element.send env e fid true).1.url = true
          ∨ truthyStr (Element.send env e fid true).1.chainlit_key = true) →
        (Element.send env e fid true).2.2 = .ok ()
        ∧ (Element.send env e fid true).2.1.getLast?
            = some (Effect.sendElement
                (Element.to_dict (Element.send env e fid true).1))) := by
  unfold Element.send
  rcases hcr : Element.create env (sendPrep env e fid) true with ⟨e3, effs, r⟩
  have hok : r = Except.ok true := by
    have := create_ok_of_upload_ok env (sendPrep env e fid) true k hk
    rw [hcr] at this
    cases r with
    | error err => exact absurd this (by simp)
    | ok b => simp at this; rw [this]
  subst hok
  cases hd : !truthyStr e3.url && !truthyStr e3.chainlit_key with
  | true =>
    have ha : truthyStr e3.url = false := by
      have h1 := ((Bool.and_eq_true _ _).mp hd).1
      rwa [Bool.not_eq_true'] at h1
    have hb : truthyStr e3.chainlit_key = false := by
      have h1 := ((Bool.and_eq_true _ _).mp hd).2
      rwa [Bool.not_eq_true'] at h1
    simp [ha, hb]
  | false =>
    have hor : truthyStr e3.url = true ∨ truthyStr e3.chainlit_key = true := by
      rcases Bool.and_eq_false_iff.mp hd with h | h
      · left
        rwa [Bool.not_eq_false'] at h
      · right
        rwa [Bool.not_eq_false'] at h
    rcases hor with h | h <;> simp [h, List.getLast?_concat]

/-- C4 (witness): the delivery theorem at a concrete content element:
the upload gives a truthy key, so the send succeeds and emits. -/
theorem c4_send_delivery_witness :
    (Element.send envW eBase (some "m1") true).2.2 = .ok ()
    ∧ (Element.send envW eBase (some "m1") true).2.1.getLast?
        = some (Effect.sendElement
            (Element.to_dict (Element.send envW eBase (some "m1") true).1)) :=
  (c4_send_delivery envW eBase (some "m1") "key1" rfl).2 (Or.inr rfl)

/-- C7: on an element with no mime, `send` resolves the mime with the
static table first, then sniffing on a truthy path or byte content
(keeping `None` when the sniff fails), then url extension guessing,
and leaves it `None` when no rule applies. -/
theorem c7_mime_resolution (env : Env) (e : Element) (fid : Option String)
    (h : e.mime = none) :
    (∀ s, mime_types e.type = some s →
        (Element.send env e fid true).1.mime = some s)
    ∧ (mime_types e.type = none →
        (truthyStr e.path || isBytesContent e.content) = true →
        (Element.send env e fid true).1.mime = env.sniff (sniffArg e))
    ∧ (mime_types e.type = none →
        (truthyStr e.path || isBytesContent e.content) = false →
        ∀ u, e.url = some u → truthyStr e.url = true →
        (Element.send env e fid true).1.mime = env.guessTypeUrl u)
    ∧ (mime_types e.type = none →
        (truthyStr e.path || isBytesContent e.content) = false →
        truthyStr e.url = false →
        (Element.send env e fid true).1.mime = none) := by
  have hm : (Element.send env e fid true).1.mime
      = resolveMime env { e with for_id := fid } := by
    rw [send_fst_mime, sendPrep_mime, h]
    simp [truthyStr]
  refine ⟨?_, ?_, ?_, ?_⟩
  · intro s hs
    rw [hm]
    simp [resolveMime, hs]
  · intro h0 hcond
    rw [hm]
    simp only [resolveMime, h0, hcond]
    cases hsn : env.sniff (sniffArg { e with for_id := fid }) <;>
      simp [hsn, h, sniffArg] at * <;> simp_all [sniffArg]
  · intro h0 hcond u hu hurl
    have hurl2 : truthyStr (some u) = true := hu ▸ hurl
    rw [hm]
    simp [resolveMime, h0, hcond, hu, hurl2]
  · intro h0 hcond hurl
    rw [hm]
    simp [resolveMime, h0, hcond, hurl, h]

/-- C7 (witness): a text-typed element resolves to `text/plain` from
the static table. -/
theorem c7_mime_resolution_witness :
    (Element.send envW { eBase with type := ElemType.text } (some "m") true).1.mime
      = some "text/plain" :=
  (c7_mime_resolution envW { eBase with type := ElemType.text } (some "m") rfl).1
    "text/plain" rfl

/-- C10: when `send` raises the delivery error, the element has
already been mutated: `for_id` holds the argument, `persisted` is
true, and `mime` holds the freshly resolved value. -/
theorem c10_send_not_atomic (env : Env) (e : Element) (fid : Option String)
    (h : (Element.send env e fid true).2.2 = .error .deliveryError) :
    (Element.send env e fid true).1.for_id = fid
    ∧ (Element.send env e fid true).1.persisted = true
    ∧ (Element.send env e fid true).1.mime
        = (if truthyStr e.mime then e.mime
           else resolveMime env { e with for_id := fid }) := by
  refine ⟨send_fst_for_id env e fid true, ?_, ?_⟩
  · unfold Element.send at h ⊢
    rcases hcr : Element.create env (sendPrep env e fid) true with ⟨e3, effs, r⟩
    rw [hcr] at h
    cases r with
    | error err =>
      exfalso
      have hinv := create_error_inv env (sendPrep env e fid) true err
        (by rw [hcr])
      simp at h
      rcases hinv.1 with ⟨m, hm, -⟩
      rw [h] at hm
      exact absurd hm (by simp)
    | ok b =>
      have hpers := create_ok_inv env (sendPrep env e fid) true b (by rw [hcr])
      have h3 : e3.persisted = true := by
        have := hpers.2
        rw [hcr] at this
        exact this
      cases hd : !truthyStr e3.url && !truthyStr e3.chainlit_key <;> simp [hd, h3]
  · rw [send_fst_mime, sendPrep_mime]

/-- C10 (witness): a content element whose upload returns an empty id
raises the delivery error with `for_id`, `persisted` and `mime`
already updated. -/
theorem c10_send_not_atomic_witness :
    (Element.send envEmptyKey eBase (some "m1") true).1.for_id = some "m1"
    ∧ (Element.send envEmptyKey eBase (some "m1") true).1.persisted = true
    ∧ (Element.send envEmptyKey eBase (some "m1") true).1.mime
        = (if truthyStr eBase.mime then eBase.mime
           else resolveMime envEmptyKey { eBase with for_id := some "m1" }) :=
  c10_send_not_atomic envEmptyKey eBase (some "m1") rfl

/-- The scenario task list of the spec: default construction in thread
`th0` with id `tl1`, then tasks `t1` (ready) and `t2` (done) added. -/
def tlScenario : TaskList :=
  { elem :=
      { type := .tasklist, thread_id := "th0", name := "tasklist", id := "tl1"
      , chainlit_key := none, url := none, object_key := none, path := none
      , content := some (.str "dummy content to pass validation")
      , display := .inline, size := none, for_id := none, language := none
      , mime := none, props := none, page := none, auto_play := none
      , player_config := none, persisted := false, updatable := true }
  , status := "Ready"
  , tasks := [⟨"t1", .ready, none⟩, ⟨"t2", .done, none⟩] }

/-- The JSON document the scenario's content must deserialize to. -/
def tlExpectedJson : Json :=
  .obj [("status", .str "Ready"),
        ("tasks", .arr
          [.obj [("title", .str "t1"), ("status", .str "ready"), ("forId", .null)],
           .obj [("title", .str "t2"), ("status", .str "done"), ("forId", .null)]])]

/-- The exact indented JSON text Python produces for the scenario. -/
def tlExpectedStr : String :=
  "\x7b\n    \"status\": \"Ready\",\n    \"tasks\": [\n        \x7b\n            \"title\": \"t1\",\n            \"status\": \"ready\",\n            \"forId\": null\n        \x7d,\n        \x7b\n            \"title\": \"t2\",\n            \"status\": \"done\",\n            \"forId\": null\n        \x7d\n    ]\n\x7d"

set_option maxRecDepth 8000 in
/-- C8: every `TaskList.send` first recomputes `content` as the
indented JSON serialization of the current status and tasks, and the
two-task scenario emits exactly the expected document: the content
uploaded by `persist_file` is the serialization of the expected JSON
object. -/
theorem c8_tasklist_send :
    (∀ env t, ((TaskList.send env t).1).elem.content
        = some (FileContent.str (jdumpsI 0 (taskListJson t))))
    ∧ (mkTaskListDefault "th0" "tl1").map
        (fun t => (t.add_task ⟨"t1", .ready, none⟩).add_task ⟨"t2", .done, none⟩)
        = .ok tlScenario
    ∧ jdumpsI 0 (taskListJson tlScenario) = tlExpectedStr
    ∧ tlExpectedStr = jdumpsI 0 tlExpectedJson
    ∧ (TaskList.send envW tlScenario).2.1.head?
        = some (Effect.persistFile "tasklist" none (some (.str tlExpectedStr))
            "application/json")
    ∧ (TaskList.send envW tlScenario).2.2 = .ok () := by
  refine ⟨?_, rfl, rfl, rfl, rfl, rfl⟩
  intro env t
  unfold TaskList.send
  rcases hs : Element.send env t.preprocess_content.elem (some "") true with ⟨e, effs, r⟩
  have hc : e.content = t.preprocess_content.elem.content := by
    have := send_fst_content env t.preprocess_content.elem (some "") true
    rw [hs] at this
    exact this
  show e.content = _
  rw [hc]
  simp [TaskList.preprocess_content]

end Chainlit
